import Mathlib

/-
  Verification of the phase-gated workflow orchestrator.

  Shallow embedding of:
    - orchestrator/hooks/lint_phase.sh.backup  (artifact gate, severity scan,
      mitigation resolution, validator dispatch, exit-code accumulation)
    - orchestrator/plugins.runtime.sh          (plugin invoker, two modes)
    - ci/run_phase_checks.sh                   (top-level phase-check command)

  A file is modelled as a list of lines, each line a list of characters.
  External tool exit codes (linters, test runners, audit producers) are inputs
  to the model, since the scripts only interpret them.
-/

namespace SpecKit

abbrev Line := List Char

abbrev FileContent := List Line

/-- Lowercasing of one line, the effect of the -i flag of grep on ASCII text. -/
def lowerLine (l : Line) : Line := l.map Char.toLower

/-- Boolean test that p occurs at the start of l. -/
def isPre : List Char → List Char → Bool
  | [], _ => true
  | _ :: _, [] => false
  | a :: as, b :: bs => a == b && isPre as bs

/-- Boolean test that p occurs contiguously anywhere inside l. -/
def isSub (p : List Char) (l : List Char) : Bool :=
  isPre p l ||
  match l with
  | [] => false
  | _ :: rest => isSub p rest

/-- Matcher for a regular expression of the form a.*b inside one line: some
suffix of the line starts with a, and b occurs after that copy of a. -/
def matchSeq (a b : List Char) (l : List Char) : Bool :=
  (isPre a l && isSub b (l.drop a.length)) ||
  match l with
  | [] => false
  | _ :: rest => matchSeq a b rest

/-- One line of the severity scan of lint_phase.sh.backup line 93:
grep -qi with pattern severity.*critical or severity.*high. -/
def sevLine (line : Line) : Bool :=
  matchSeq "severity".toList "critical".toList (lowerLine line) ||
  matchSeq "severity".toList "high".toList (lowerLine line)

/-- grep -qi over the whole file: some line matches the severity pattern. -/
def grepSeverity (content : FileContent) : Bool := content.any sevLine

/-- Case sensitive fixed-string grep -q: some line contains pat. -/
def grepFixed (pat : List Char) (content : FileContent) : Bool :=
  content.any (fun line => isSub pat line)

/-- The filesystem state the gating scripts inspect: the artifact files, the
mitigation and waiver documents, and the workspace manifest probes. -/
structure Workspace where
  specFindings : Option FileContent
  planScan : Option FileContent
  implementScan : Option FileContent
  analyzeDeltas : Option FileContent
  analyzeCompliance : Option FileContent
  tasksUnitHelp : Option FileContent
  planMd : Option FileContent
  decisionsMd : Option FileContent
  requirementsTxt : Bool
  pyprojectToml : Bool
  packageJson : Bool
  cargoToml : Bool

/-- Exit codes of the external validator tools, as interpreted by the script.
Each field is the code of the surviving command of one step. -/
structure Validators where
  nodeLint : Nat
  nodePrettier : Nat
  nodeTypecheck : Nat
  nodeTest : Nat
  cargoFmt : Nat
  cargoClippy : Nat
  cargoTest : Nat

/-- Python workspace probe of lint_phase.sh.backup line 29. -/
def pythonManifest (w : Workspace) : Bool := w.requirementsTxt || w.pyprojectToml

/-- Paths of the plugin artifacts named by the scripts. -/
def artifactPaths : List String :=
  ["reports/security/spec-findings.md",
   "reports/security/plan-scan.md",
   "reports/security/implement-scan.md",
   "reports/security/analyze-deltas.md",
   "reports/compliance/analyze-compliance.md",
   "reports/tests/tasks-unit-help.md"]

/-- Existence of the file at a given artifact path in the workspace. -/
def existsAt (w : Workspace) (path : String) : Bool :=
  if path == "reports/security/spec-findings.md" then w.specFindings.isSome
  else if path == "reports/security/plan-scan.md" then w.planScan.isSome
  else if path == "reports/security/implement-scan.md" then w.implementScan.isSome
  else if path == "reports/security/analyze-deltas.md" then w.analyzeDeltas.isSome
  else if path == "reports/compliance/analyze-compliance.md" then w.analyzeCompliance.isSome
  else if path == "reports/tests/tasks-unit-help.md" then w.tasksUnitHelp.isSome
  else false

/-- Artifact requirements of each phase, with the Python predicate on the
tasks phase, as in lint_phase.sh.backup lines 17 to 48. -/
def requiredPaths (phase : String) (w : Workspace) : List String :=
  if phase == "spec" then ["reports/security/spec-findings.md"]
  else if phase == "plan" then ["reports/security/plan-scan.md"]
  else if phase == "tasks" then
    (if pythonManifest w then ["reports/tests/tasks-unit-help.md"] else [])
  else if phase == "implement" then ["reports/security/implement-scan.md"]
  else if phase == "analyze" then
    ["reports/security/analyze-deltas.md", "reports/compliance/analyze-compliance.md"]
  else []

/-- The missing_artifacts array built by validate_plugin_artifacts, mirroring
the case arms of lint_phase.sh.backup lines 17 to 48. -/
def missing_artifacts (phase : String) (w : Workspace) : List String :=
  if phase == "spec" then
    (if w.specFindings.isSome then [] else ["reports/security/spec-findings.md"])
  else if phase == "plan" then
    (if w.planScan.isSome then [] else ["reports/security/plan-scan.md"])
  else if phase == "tasks" then
    (if pythonManifest w then
      (if w.tasksUnitHelp.isSome then [] else ["reports/tests/tasks-unit-help.md"])
     else [])
  else if phase == "implement" then
    (if w.implementScan.isSome then [] else ["reports/security/implement-scan.md"])
  else if phase == "analyze" then
    (if w.analyzeDeltas.isSome then [] else ["reports/security/analyze-deltas.md"]) ++
    (if w.analyzeCompliance.isSome then [] else ["reports/compliance/analyze-compliance.md"])
  else []

/-- The report files check_security_findings scans, by phase, from
lint_phase.sh.backup lines 74 to 88. -/
def securityReport (phase : String) (w : Workspace) : List (Option FileContent) :=
  if phase == "spec" then [w.specFindings]
  else if phase == "plan" then [w.planScan]
  else if phase == "implement" then [w.implementScan]
  else if phase == "analyze" then [w.analyzeDeltas]
  else []

/-- Mitigation branch of lint_phase.sh.backup line 98: plans/plan.md exists
and contains the fixed string Security Mitigations. -/
def planHasMitigations (w : Workspace) : Bool :=
  match w.planMd with
  | some c => grepFixed "Security Mitigations".toList c
  | none => false

/-- Waiver branch of lint_phase.sh.backup line 100: DECISIONS.md exists and
contains the fixed string Security Finding Waiver. -/
def decisionsHasWaiver (w : Workspace) : Bool :=
  match w.decisionsMd with
  | some c => grepFixed "Security Finding Waiver".toList c
  | none => false

/-- A blocking finding is treated as covered when either document check of
lines 98 to 101 succeeds. -/
def hasMitigationOrWaiver (w : Workspace) : Bool :=
  planHasMitigations w || decisionsHasWaiver w

/-- Loop body of check_security_findings lines 90 to 109: for each report that
exists and matches the severity pattern, require a mitigation or waiver,
returning 2 at the first unmitigated finding. -/
def checkReports (w : Workspace) : List (Option FileContent) → Nat
  | [] => 0
  | r :: rest =>
    match r with
    | some c =>
      if grepSeverity c then
        (if hasMitigationOrWaiver w then checkReports w rest else 2)
      else checkReports w rest
    | none => checkReports w rest

/-- check_security_findings of lint_phase.sh.backup lines 69 to 112. -/
def check_security_findings (phase : String) (w : Workspace) : Nat :=
  checkReports w (securityReport phase w)

/-- validate_plugin_artifacts of lint_phase.sh.backup lines 10 to 67: return 1
when any required artifact is missing, otherwise the security-findings code. -/
def validate_plugin_artifacts (phase : String) (w : Workspace) : Nat :=
  if (missing_artifacts phase w).isEmpty then check_security_findings phase w else 1

/-- Phase filter of lint_phase.sh.backup line 115, the regex
caret spec or plan or tasks or implement or analyze dollar. -/
def checkedPhase (phase : String) : Bool :=
  phase == "spec" || phase == "plan" || phase == "tasks" ||
  phase == "implement" || phase == "analyze"

/-- Effect of one cmd-or-assign line: EXIT_CODE is overwritten by a non-zero
step code and kept otherwise. -/
def accum (exitCode stepCode : Nat) : Nat :=
  if stepCode = 0 then exitCode else stepCode

/-- Outcome of one lint_phase run: the process exit code, the validator steps
that executed in order, and the missing artifacts echoed to the operator. -/
structure RunResult where
  exitCode : Nat
  stepsRun : List String
  missingReported : List String

/-- Main body of lint_phase.sh.backup lines 114 to 170: artifact validation
for the five checked phases, then the Node chain (four steps when
package.json is present and the phase is implement), then the Rust chain
(three steps when Cargo.toml is present and the phase is implement), the
mutable EXIT_CODE threaded through every step in script order. -/
def lint_phase (phase : String) (w : Workspace) (v : Validators) : RunResult :=
  let gateCode := if checkedPhase phase then validate_plugin_artifacts phase w else 0
  let missingOut := if checkedPhase phase then missing_artifacts phase w else []
  let nodeImpl := w.packageJson && phase == "implement"
  let rustImpl := w.cargoToml && phase == "implement"
  let e1 := accum 0 gateCode
  let e2 := if nodeImpl then accum e1 v.nodeLint else e1
  let e3 := if nodeImpl then accum e2 v.nodePrettier else e2
  let e4 := if nodeImpl then accum e3 v.nodeTypecheck else e3
  let e5 := if nodeImpl then accum e4 v.nodeTest else e4
  let e6 := if rustImpl then accum e5 v.cargoFmt else e5
  let e7 := if rustImpl then accum e6 v.cargoClippy else e6
  let e8 := if rustImpl then accum e7 v.cargoTest else e7
  let nodeSteps := if nodeImpl then ["eslint", "prettier", "typescript", "test"] else []
  let rustSteps := if rustImpl then ["cargo-fmt", "cargo-clippy", "cargo-test"] else []
  { exitCode := e8, stepsRun := nodeSteps ++ rustSteps, missingReported := missingOut }

/-- All validator tools exiting zero. -/
def allPass (v : Validators) : Bool :=
  v.nodeLint == 0 && v.nodePrettier == 0 && v.nodeTypecheck == 0 && v.nodeTest == 0 &&
  v.cargoFmt == 0 && v.cargoClippy == 0 && v.cargoTest == 0

def vZero : Validators :=
  { nodeLint := 0, nodePrettier := 0, nodeTypecheck := 0, nodeTest := 0,
    cargoFmt := 0, cargoClippy := 0, cargoTest := 0 }

/-- Workspace with nothing present, the base for concrete test states. -/
def w0 : Workspace :=
  { specFindings := none, planScan := none, implementScan := none,
    analyzeDeltas := none, analyzeCompliance := none, tasksUnitHelp := none,
    planMd := none, decisionsMd := none,
    requirementsTxt := false, pyprojectToml := false,
    packageJson := false, cargoToml := false }

/-- The two plugin invocation modes of plugins.runtime.sh, selected by the
environment variable ORCHESTRATOR_PLUGIN_MODE (default cli). -/
inductive Mode
  | claude
  | cli
deriving DecidableEq

/-- Text contributed by the external producer tools that the cli scripts
invoke; the scripts only splice these into artifacts. -/
structure Env where
  threatModelOut : FileContent
  jsAuditOut : FileContent
  rustAuditOut : FileContent
  pyAuditOut : FileContent
  complianceOut : FileContent

/-- Placeholder artifact written in claude mode: a truncating create followed
by a title line, a blank line and the instruction line. -/
def claudeStub (title : String) : FileContent :=
  [title.toList, [], "_Claude plugins should append their outputs here._".toList]

def run_claude_spec (w : Workspace) : Workspace :=
  { w with specFindings := some (claudeStub "# Spec Findings (from Claude plugins)") }

def run_claude_plan (w : Workspace) : Workspace :=
  { w with planScan := some (claudeStub "# Plan Scan (from Claude plugins)") }

def run_claude_tasks (w : Workspace) : Workspace :=
  { w with tasksUnitHelp := some (claudeStub "# Python Unit Testing Help (from Claude plugins)") }

def run_claude_implement (w : Workspace) : Workspace :=
  { w with implementScan := some (claudeStub "# Implement Scan (from Claude plugins)") }

def run_claude_analyze (w : Workspace) : Workspace :=
  { w with analyzeCompliance := some (claudeStub "# Compliance Report (from Claude plugins)") }

/-- Modelled from the spec: scripts/generate-threat-model.sh is not under
src (only its caller run_cli_spec is); in local-script mode the producer
merges its output into the required artifact path, overwriting prior
content for the phase. -/
def run_cli_spec (e : Env) (w : Workspace) : Workspace :=
  { w with specFindings := some e.threatModelOut }

/-- run_cli_plan: scripts/audit-js.sh truncates reports/security/plan-scan.md
and writes the JS section, then audit-rust.sh and audit-python.sh append
their sections; scripts/merge-audits.sh is not under src and is modelled
from the spec as merging into the same artifact path. -/
def run_cli_plan (e : Env) (w : Workspace) : Workspace :=
  let pySection : FileContent :=
    if w.pyprojectToml || w.requirementsTxt then e.pyAuditOut
    else ["- No Python project detected; skipping".toList]
  let merged : FileContent :=
    ("# Plan Scan - JS/TS".toList :: e.jsAuditOut) ++
    ([] :: "# Plan Scan - Rust".toList :: [] :: e.rustAuditOut) ++
    ([] :: "# Plan Scan - Python".toList :: [] :: pySection)
  { w with planScan := some merged }

/-- run_cli_tasks: scripts/python-unit-help.sh overwrites the tasks artifact
with a fixed document, only when a Python manifest is present. -/
def pythonUnitHelpDoc : FileContent :=
  ["# Python Unit Testing Help".toList, [],
   "- Suggested structure: tests with test files".toList,
   "- Coverage goal: at least 80 percent".toList]

def run_cli_tasks (w : Workspace) : Workspace :=
  if w.pyprojectToml || w.requirementsTxt then
    { w with tasksUnitHelp := some pythonUnitHelpDoc }
  else w

/-- run_cli_implement of plugins.runtime.sh line 52: run the plan producers,
then mv -f reports/security/plan-scan.md to
reports/security/implement-scan.md, which removes plan-scan.md. -/
def run_cli_implement (e : Env) (w : Workspace) : Workspace :=
  let w2 := run_cli_plan e w
  { w2 with implementScan := w2.planScan, planScan := none }

/-- Modelled from the spec: scripts/generate-compliance-report.sh is not
under src (only its caller run_cli_analyze is); it populates the
compliance artifact, overwriting prior content. -/
def run_cli_analyze (e : Env) (w : Workspace) : Workspace :=
  { w with analyzeCompliance := some e.complianceOut }

/-- plugins.runtime.sh main dispatch, lines 54 to 75: per-mode case on the
phase name; an unrecognized phase prints Unknown phase and exits 1,
leaving the filesystem unchanged. Result is exit code and new state. -/
def plugins_runtime (mode : Mode) (phase : String) (e : Env) (w : Workspace) :
    Nat × Workspace :=
  match mode with
  | Mode.claude =>
    if phase == "spec" then (0, run_claude_spec w)
    else if phase == "plan" then (0, run_claude_plan w)
    else if phase == "tasks" then (0, run_claude_tasks w)
    else if phase == "implement" then (0, run_claude_implement w)
    else if phase == "analyze" then (0, run_claude_analyze w)
    else (1, w)
  | Mode.cli =>
    if phase == "spec" then (0, run_cli_spec e w)
    else if phase == "plan" then (0, run_cli_plan e w)
    else if phase == "tasks" then (0, run_cli_tasks w)
    else if phase == "implement" then (0, run_cli_implement e w)
    else if phase == "analyze" then (0, run_cli_analyze e w)
    else (1, w)

/-- ci/run_phase_checks.sh: usage error with exit 2 on an empty argument;
otherwise the plugin runtime is invoked with its exit status discarded by
the or-true list, and the process exit code is the lint hook code. -/
def run_phase_checks (mode : Mode) (phase : String) (e : Env) (w : Workspace)
    (v : Validators) : Nat :=
  if phase == "" then 2
  else (lint_phase phase (plugins_runtime mode phase e w).snd v).exitCode

/-- Ordered list of the exit codes produced by the steps of one lint_phase
run: the artifact gate, then each Node step, then each Rust step. -/
def stepCodes (phase : String) (w : Workspace) (v : Validators) : List Nat :=
  (if checkedPhase phase then [validate_plugin_artifacts phase w] else []) ++
  (if w.packageJson && phase == "implement" then
    [v.nodeLint, v.nodePrettier, v.nodeTypecheck, v.nodeTest] else []) ++
  (if w.cargoToml && phase == "implement" then
    [v.cargoFmt, v.cargoClippy, v.cargoTest] else [])

/-- Reduction of a sequence of step codes by the mutable EXIT_CODE variable. -/
def lastFailure (codes : List Nat) : Nat := codes.foldl accum 0

/-! Helper lemmas. -/

theorem accum_zero (e : Nat) : accum e 0 = e := by
  simp [accum]

theorem checkReports_le (w : Workspace) (l : List (Option FileContent)) :
    checkReports w l ≤ 2 := by
  induction l with
  | nil => simp [checkReports]
  | cons r rest ih =>
    cases r with
    | none => simpa [checkReports] using ih
    | some c =>
      by_cases hs : grepSeverity c = true
      · by_cases hm : hasMitigationOrWaiver w = true
        · simpa [checkReports, hs, hm] using ih
        · simp [checkReports, hs, hm]
      · simpa [checkReports, hs] using ih

theorem validate_le (p : String) (w : Workspace) :
    validate_plugin_artifacts p w ≤ 2 := by
  unfold validate_plugin_artifacts
  by_cases h : (missing_artifacts p w).isEmpty = true
  · simpa [h] using checkReports_le w (securityReport p w)
  · simp [h]

theorem existsAt_path1 (w : Workspace) :
    existsAt w "reports/security/spec-findings.md" = w.specFindings.isSome := rfl

theorem existsAt_path2 (w : Workspace) :
    existsAt w "reports/security/plan-scan.md" = w.planScan.isSome := rfl

theorem existsAt_path3 (w : Workspace) :
    existsAt w "reports/security/implement-scan.md" = w.implementScan.isSome := rfl

theorem existsAt_path4 (w : Workspace) :
    existsAt w "reports/security/analyze-deltas.md" = w.analyzeDeltas.isSome := rfl

theorem existsAt_path5 (w : Workspace) :
    existsAt w "reports/compliance/analyze-compliance.md" = w.analyzeCompliance.isSome := rfl

theorem existsAt_path6 (w : Workspace) :
    existsAt w "reports/tests/tasks-unit-help.md" = w.tasksUnitHelp.isSome := rfl

theorem missing_eq_filter (p : String) (w : Workspace) :
    missing_artifacts p w = (requiredPaths p w).filter (fun a => !(existsAt w a)) := by
  by_cases h1 : p = "spec"
  · subst h1
    have e1 : missing_artifacts "spec" w =
        (if w.specFindings.isSome then [] else ["reports/security/spec-findings.md"]) := rfl
    have e2 : requiredPaths "spec" w = ["reports/security/spec-findings.md"] := rfl
    rw [e1, e2]
    cases hw : w.specFindings.isSome <;> simp [List.filter, existsAt_path1, hw]
  · by_cases h2 : p = "plan"
    · subst h2
      have e1 : missing_artifacts "plan" w =
          (if w.planScan.isSome then [] else ["reports/security/plan-scan.md"]) := rfl
      have e2 : requiredPaths "plan" w = ["reports/security/plan-scan.md"] := rfl
      rw [e1, e2]
      cases hw : w.planScan.isSome <;> simp [List.filter, existsAt_path2, hw]
    · by_cases h3 : p = "tasks"
      · subst h3
        have e1 : missing_artifacts "tasks" w =
            (if pythonManifest w then
              (if w.tasksUnitHelp.isSome then []
               else ["reports/tests/tasks-unit-help.md"]) else []) := rfl
        have e2 : requiredPaths "tasks" w =
            (if pythonManifest w then ["reports/tests/tasks-unit-help.md"] else []) := rfl
        rw [e1, e2]
        by_cases hpy : pythonManifest w = true
        · cases hw : w.tasksUnitHelp.isSome <;>
            simp [List.filter, existsAt_path6, hw, hpy]
        · simp [hpy]
      · by_cases h4 : p = "implement"
        · subst h4
          have e1 : missing_artifacts "implement" w =
              (if w.implementScan.isSome then []
               else ["reports/security/implement-scan.md"]) := rfl
          have e2 : requiredPaths "implement" w =
              ["reports/security/implement-scan.md"] := rfl
          rw [e1, e2]
          cases hw : w.implementScan.isSome <;> simp [List.filter, existsAt_path3, hw]
        · by_cases h5 : p = "analyze"
          · subst h5
            have e1 : missing_artifacts "analyze" w =
                (if w.analyzeDeltas.isSome then []
                 else ["reports/security/analyze-deltas.md"]) ++
                (if w.analyzeCompliance.isSome then []
                 else ["reports/compliance/analyze-compliance.md"]) := rfl
            have e2 : requiredPaths "analyze" w =
                ["reports/security/analyze-deltas.md",
                 "reports/compliance/analyze-compliance.md"] := rfl
            rw [e1, e2]
            cases hw : w.analyzeDeltas.isSome <;>
              cases hw2 : w.analyzeCompliance.isSome <;>
                simp [List.filter, existsAt_path4, existsAt_path5, hw, hw2]
          · simp [missing_artifacts, requiredPaths, h1, h2, h3, h4, h5]

theorem missing_nil_of_unchecked (p : String) (w : Workspace)
    (h : checkedPhase p = false) : missing_artifacts p w = [] := by
  simp only [checkedPhase, Bool.or_eq_false_iff] at h
  obtain ⟨⟨⟨⟨h1, h2⟩, h3⟩, h4⟩, h5⟩ := h
  simp [missing_artifacts, h1, h2, h3, h4, h5]

theorem accum_zero_left (g : Nat) : accum 0 g = g := by
  unfold accum
  split <;> omega

theorem lint_exit_allPass (p : String) (w : Workspace) (v : Validators)
    (hv : allPass v = true) :
    (lint_phase p w v).exitCode =
      (if checkedPhase p then validate_plugin_artifacts p w else 0) := by
  simp only [allPass, Bool.and_eq_true, beq_iff_eq] at hv
  obtain ⟨⟨⟨⟨⟨⟨n1, n2⟩, n3⟩, n4⟩, f1⟩, f2⟩, f3⟩ := hv
  simp [lint_phase, n1, n2, n3, n4, f1, f2, f3, accum_zero, accum_zero_left]

theorem checkedPhase_of_mem (p : String)
    (hp : p ∈ ["spec", "plan", "implement", "analyze"]) : checkedPhase p = true := by
  simp only [List.mem_cons, List.mem_singleton, List.not_mem_nil, or_false] at hp
  rcases hp with rfl | rfl | rfl | rfl <;> rfl

/-! Claim theorems. -/

/-- C1: for a phase whose required security artifact exists and matches the
CRITICAL or HIGH severity pattern, when plans/plan.md lacks a Security
Mitigations section and DECISIONS.md lacks a Security Finding Waiver record
(and no other required artifact is missing and the external validators all
pass), the phase check terminates with exit code 2. -/
theorem c1_unmitigated_findings_exit_two (p : String) (w : Workspace)
    (c : FileContent) (v : Validators)
    (hp : p ∈ ["spec", "plan", "implement", "analyze"])
    (hv : allPass v = true)
    (hmiss : missing_artifacts p w = [])
    (hrep : securityReport p w = [some c])
    (hsev : grepSeverity c = true)
    (hmit : hasMitigationOrWaiver w = false) :
    (lint_phase p w v).exitCode = 2 := by
  have hchk : checkedPhase p = true := checkedPhase_of_mem p hp
  have hcheck : check_security_findings p w = 2 := by
    unfold check_security_findings
    rw [hrep]
    simp [checkReports, hsev, hmit]
  have hval : validate_plugin_artifacts p w = 2 := by
    unfold validate_plugin_artifacts
    rw [hmiss]
    simpa using hcheck
  rw [lint_exit_allPass p w v hv]
  simp [hchk, hval]

/-- Scenario B state: phase plan, plan-scan.md present and containing the line
Severity: HIGH, no mitigation document, no waiver ledger. -/
def wB : Workspace := { w0 with planScan := some ["Severity: HIGH".toList] }

/-- Witness for C1 at the Scenario B state. -/
theorem c1_unmitigated_findings_exit_two_witness :
    (lint_phase "plan" wB vZero).exitCode = 2 :=
  c1_unmitigated_findings_exit_two "plan" wB ["Severity: HIGH".toList] vZero
    (by decide) (by decide) (by decide) (by decide) (by decide) (by decide)

/-- C2: whenever some artifact required for the phase is missing, the check
exits with code 1 (validators all passing), the reported list is exactly the
missing_artifacts list, and that list is complete: it equals the set of all
required paths whose file does not exist, so the gate does not stop at the
first missing artifact. -/
theorem c2_missing_artifacts_exit_one (p : String) (w : Workspace) (v : Validators)
    (hv : allPass v = true)
    (hm : missing_artifacts p w ≠ []) :
    (lint_phase p w v).exitCode = 1 ∧
    (lint_phase p w v).missingReported = missing_artifacts p w ∧
    missing_artifacts p w = (requiredPaths p w).filter (fun a => !(existsAt w a)) := by
  have hchk : checkedPhase p = true := by
    by_contra hc
    have hfalse : checkedPhase p = false := by
      cases hcc : checkedPhase p
      · rfl
      · exact absurd hcc hc
    exact hm (missing_nil_of_unchecked p w hfalse)
  have hval : validate_plugin_artifacts p w = 1 := by
    unfold validate_plugin_artifacts
    have hne : (missing_artifacts p w).isEmpty = false := by
      cases hmm : missing_artifacts p w with
      | nil => exact absurd hmm hm
      | cons a t => rfl
    simp [hne]
  refine ⟨?_, ?_, missing_eq_filter p w⟩
  · rw [lint_exit_allPass p w v hv]
    simp [hchk, hval]
  · simp [lint_phase, hchk]

/-- Witness for C2 at the analyze phase with both required artifacts missing:
the run exits 1 and both missing paths are reported in one run. -/
theorem c2_missing_artifacts_exit_one_witness :
    ((lint_phase "analyze" w0 vZero).exitCode = 1 ∧
     (lint_phase "analyze" w0 vZero).missingReported = missing_artifacts "analyze" w0 ∧
     missing_artifacts "analyze" w0 =
       (requiredPaths "analyze" w0).filter (fun a => !(existsAt w0 a))) ∧
    missing_artifacts "analyze" w0 =
      ["reports/security/analyze-deltas.md", "reports/compliance/analyze-compliance.md"] :=
  ⟨c2_missing_artifacts_exit_one "analyze" w0 vZero (by decide) (by decide), by decide⟩

/-- Mitigation document holding only the recognized section header and no
owner or timeline detail marker of any kind. -/
def mitigationHeaderOnlyDoc : FileContent := ["## Security Mitigations".toList]

/-- State for C3: blocking finding in plan-scan.md, mitigation plan present
with the section header alone, waiver ledger absent. -/
def wC3 : Workspace :=
  { w0 with planScan := some ["Severity: HIGH".toList],
            planMd := some mitigationHeaderOnlyDoc }

/-- C3 counterexample: the mitigation plan contains the section header but no
owner or timeline marker, yet the finding is treated as resolved and the
phase check passes with exit code 0, where the claim requires the gate to
fail. -/
theorem c3_counterexample :
    grepFixed "Owner".toList mitigationHeaderOnlyDoc = false ∧
    grepFixed "Timeline".toList mitigationHeaderOnlyDoc = false ∧
    grepSeverity ["Severity: HIGH".toList] = true ∧
    hasMitigationOrWaiver wC3 = true ∧
    (lint_phase "plan" wC3 vZero).exitCode = 0 := by decide

/-- C3 amended: a blocking finding is resolved exactly when plans/plan.md
contains the fixed string Security Mitigations or DECISIONS.md contains the
fixed string Security Finding Waiver; no owner or timeline detail marker is
consulted, so the security check code is fully determined by those two
fixed-string greps. -/
theorem c3_amended_resolution_single_grep (p : String) (w : Workspace)
    (c : FileContent)
    (hrep : securityReport p w = [some c])
    (hsev : grepSeverity c = true) :
    check_security_findings p w = (if hasMitigationOrWaiver w then 0 else 2) := by
  unfold check_security_findings
  rw [hrep]
  by_cases hm : hasMitigationOrWaiver w = true <;> simp [checkReports, hsev, hm]

/-- Witness for the amended C3 at the header-only state: the check returns 0
although only the section header is present. -/
theorem c3_amended_resolution_single_grep_witness :
    check_security_findings "plan" wC3 = 0 := by
  have h := c3_amended_resolution_single_grep "plan" wC3 ["Severity: HIGH".toList]
    (by decide) (by decide)
  simpa using h

/-- State for C4: implement phase, unmitigated HIGH finding in the implement
scan, Node workspace present. -/
def wC4 : Workspace :=
  { w0 with implementScan := some ["Severity: HIGH".toList], packageJson := true }

/-- Validator codes for C4: ESLint fails with code 1, every later tool
passes. -/
def vC4 : Validators := { vZero with nodeLint := 1 }

/-- C4 counterexample: the artifact gate records the unmitigated-finding
code 2, a later Node validator fails with the less severe code 1, and the
final exit code is 1, so the earlier more severe failure is replaced. -/
theorem c4_counterexample :
    validate_plugin_artifacts "implement" wC4 = 2 ∧
    vC4.nodeLint = 1 ∧
    (lint_phase "implement" wC4 vC4).exitCode = 1 := by decide

theorem foldl_accum_filter (l : List Nat) (a : Nat) :
    l.foldl accum a = (l.filter (fun c => !(c == 0))).getLastD a := by
  induction l generalizing a with
  | nil => rfl
  | cons c rest ih =>
    rw [List.foldl_cons]
    by_cases hc : c = 0
    · subst hc
      rw [accum_zero, ih]
      have h2 : List.filter (fun x => !(x == 0)) (0 :: rest) =
          List.filter (fun x => !(x == 0)) rest := by
        rw [List.filter_cons]
        simp
      rw [h2]
    · have hcb : (c == 0) = false := by simpa using hc
      have h1 : accum a c = c := by
        unfold accum
        simp [hc]
      rw [h1, ih]
      have h2 : List.filter (fun x => !(x == 0)) (c :: rest) =
          c :: List.filter (fun x => !(x == 0)) rest := by
        rw [List.filter_cons]
        simp [hcb]
      rw [h2, List.getLastD_cons]

/-- C4 amended: the final exit code of a run is the code of the last failing
step in script order (artifact gate, then the Node steps, then the Rust
steps): the mutable EXIT_CODE keeps the last non-zero step code, not the
most severe failure class. -/
theorem c4_amended_last_failure_wins (p : String) (w : Workspace) (v : Validators) :
    (lint_phase p w v).exitCode = lastFailure (stepCodes p w v) ∧
    lastFailure (stepCodes p w v) =
      ((stepCodes p w v).filter (fun c => !(c == 0))).getLastD 0 := by
  constructor
  · cases hc : checkedPhase p <;>
      cases hn : (w.packageJson && (p == "implement")) <;>
        cases hr : (w.cargoToml && (p == "implement")) <;>
          simp [lint_phase, stepCodes, lastFailure, hc, hn, hr, List.foldl, accum_zero]
  · exact foldl_accum_filter (stepCodes p w v) 0

/-- State for C5: blocking finding, mitigation plan present but without the
required structural marker, decision ledger present but without a waiver
record. -/
def wC5 : Workspace :=
  { w0 with planScan := some ["Severity: HIGH".toList],
            planMd := some ["TODO: write the actual plan".toList],
            decisionsMd := some ["meeting notes only".toList] }

/-- C5 counterexample: both documents exist and fail their structural-validity
check, yet the phase check exits with code 2, not with a distinct code 3. -/
theorem c5_counterexample :
    wC5.planMd.isSome = true ∧ wC5.decisionsMd.isSome = true ∧
    hasMitigationOrWaiver wC5 = false ∧
    (lint_phase "plan" wC5 vZero).exitCode = 2 := by decide

/-- C5 amended: a mitigation or waiver document that exists but lacks its
structural marker is treated exactly like an absent document: the gating
logic never produces exit code 3 for any phase or workspace, and the
structurally invalid state exits with code 2. -/
theorem c5_amended_no_exit_three :
    (∀ (p : String) (w : Workspace), validate_plugin_artifacts p w ≤ 2) ∧
    (lint_phase "plan" wC5 vZero).exitCode = 2 :=
  ⟨fun p w => validate_le p w, by decide⟩

/-- Producer environment with empty external tool outputs. -/
def e0 : Env :=
  { threatModelOut := [], jsAuditOut := [], rustAuditOut := [],
    pyAuditOut := [], complianceOut := [] }

theorem plugins_runtime_unknown (mode : Mode) (phase : String) (e : Env)
    (w : Workspace) (h : checkedPhase phase = false) :
    plugins_runtime mode phase e w = (1, w) := by
  simp only [checkedPhase, Bool.or_eq_false_iff] at h
  obtain ⟨⟨⟨⟨h1, h2⟩, h3⟩, h4⟩, h5⟩ := h
  cases mode <;> simp [plugins_runtime, h1, h2, h3, h4, h5]

/-- C6 counterexample: for the phase name bogus, outside the fixed enum, the
plugin runtime does report the unknown phase with exit status 1, but the
phase-check invocation discards that status and terminates with exit code 0
instead of a non-zero code. -/
theorem c6_counterexample :
    (plugins_runtime Mode.cli "bogus" e0 w0).fst = 1 ∧
    run_phase_checks Mode.cli "bogus" e0 w0 vZero = 0 := by decide

/-- C6 amended: for every phase name outside the set handled by the scripts,
the plugin runtime reports Unknown phase and exits 1, but the wrapper
discards that failure with an or-true list and the lint hook skips unknown
phases, so the phase-check invocation terminates with exit code 0; only the
empty argument yields a non-zero usage exit, code 2. -/
theorem c6_amended_unknown_phase_exits_zero (mode : Mode) (phase : String)
    (e : Env) (w : Workspace) (v : Validators)
    (hchk : checkedPhase phase = false)
    (hne : (phase == "") = false) :
    (plugins_runtime mode phase e w).fst = 1 ∧
    run_phase_checks mode phase e w v = 0 ∧
    run_phase_checks mode "" e w v = 2 := by
  have hrun := plugins_runtime_unknown mode phase e w hchk
  refine ⟨by rw [hrun], ?_, rfl⟩
  have h4 : (phase == "implement") = false := by
    simp only [checkedPhase, Bool.or_eq_false_iff] at hchk
    exact hchk.1.2
  unfold run_phase_checks
  rw [hrun]
  simp [hne, lint_phase, hchk, h4, accum_zero]

/-- Witness for the amended C6: the phase name review, listed in the spec
enum but unhandled by the scripts, is reported as unknown by the runtime and
the invocation exits 0. -/
theorem c6_amended_unknown_phase_exits_zero_witness :
    (plugins_runtime Mode.claude "review" e0 w0).fst = 1 ∧
    run_phase_checks Mode.claude "review" e0 w0 vZero = 0 ∧
    run_phase_checks Mode.claude "" e0 w0 vZero = 2 :=
  c6_amended_unknown_phase_exits_zero Mode.claude "review" e0 w0 vZero
    (by decide) (by decide)

theorem isPre_append (p t : List Char) : isPre p (p ++ t) = true := by
  induction p with
  | nil => rfl
  | cons a as ih => simp [isPre, ih]

theorem isSub_split (p a b : List Char) : isSub p (a ++ (p ++ b)) = true := by
  induction a with
  | nil =>
    unfold isSub
    simp [isPre_append]
  | cons c cs ih =>
    unfold isSub
    simp [ih]

theorem matchSeq_split (a b pre mid post : List Char) :
    matchSeq a b (pre ++ (a ++ (mid ++ (b ++ post)))) = true := by
  induction pre with
  | nil =>
    unfold matchSeq
    have h1 : isPre a (a ++ (mid ++ (b ++ post))) = true := isPre_append _ _
    simp [h1]
    exact Or.inl (isSub_split b mid post)
  | cons c cs ih =>
    unfold matchSeq
    simp [ih]

theorem lower_severity_lit :
    lowerLine "Severity".toList = "severity".toList := by decide

theorem lower_critical_lit :
    lowerLine "CRITICAL".toList = "critical".toList := by decide

/-- One line containing the token Severity followed anywhere later by the
token CRITICAL matches the severity scan of the gate. -/
theorem sevLine_marker (pre mid post : Line) :
    sevLine (pre ++ ("Severity".toList ++ (mid ++ ("CRITICAL".toList ++ post)))) = true := by
  unfold sevLine
  have hlow : lowerLine (pre ++ ("Severity".toList ++ (mid ++ ("CRITICAL".toList ++ post)))) =
      lowerLine pre ++ ("severity".toList ++
        (lowerLine mid ++ ("critical".toList ++ lowerLine post))) := by
    simp [lowerLine, List.map_append]
  rw [hlow]
  rw [matchSeq_split]
  simp

/-- Line of unrelated prose containing the bare word CRITICAL and no
severity token. -/
def proseCriticalLine : Line := "The fix is CRITICAL for the launch".toList

/-- State for C7: the plan artifact exists and holds only the prose line with
the bare word CRITICAL. -/
def wC7 : Workspace := { w0 with planScan := some [proseCriticalLine] }

/-- C7 counterexample: a file whose text contains the literal word CRITICAL
inside unrelated prose is not counted as a finding: the scan does not match
and the phase check passes with exit 0, where the claim requires a blocking
finding. -/
theorem c7_counterexample :
    grepSeverity [proseCriticalLine] = false ∧
    (lint_phase "plan" wC7 vZero).exitCode = 0 := by decide

/-- C7 amended: the severity scan is a case-insensitive per-line search for
the token severity followed on the same line by critical or high (the grep
pattern severity.*critical or severity.*high); a line with the token
Severity later followed by CRITICAL matches in any casing, while a bare
CRITICAL with no preceding severity token on its line does not match, and
only the two blocking keywords are searched. -/
theorem c7_amended_scanner_pattern :
    (∀ pre mid post : Line,
      sevLine (pre ++ ("Severity".toList ++ (mid ++ ("CRITICAL".toList ++ post)))) = true) ∧
    sevLine proseCriticalLine = false ∧
    sevLine "severity: high".toList = true ∧
    sevLine "SEVERITY: CRITICAL".toList = true ∧
    sevLine "Severity: MEDIUM".toList = false ∧
    sevLine "Severity: LOW".toList = false :=
  ⟨sevLine_marker, by decide, by decide, by decide, by decide, by decide⟩

/-- State for C8: implement phase with both Node and Rust workspaces present
and a clean security report. -/
def wC8 : Workspace :=
  { w0 with implementScan := some ["scan ok, no issues".toList],
            packageJson := true, cargoToml := true }

/-- Validator codes for C8: ESLint, the first Node step, fails; every other
Node and Rust tool passes. -/
def vC8 : Validators := { vZero with nodeLint := 1 }

/-- C8 counterexample: with the first Node step failing, the later Node steps
still execute (the chain does not stop at the first non-zero exit), together
with the whole Rust chain, and the run exits with the Node failure code. -/
theorem c8_counterexample :
    vC8.nodeLint = 1 ∧
    (lint_phase "implement" wC8 vC8).stepsRun =
      ["eslint", "prettier", "typescript", "test",
       "cargo-fmt", "cargo-clippy", "cargo-test"] ∧
    (lint_phase "implement" wC8 vC8).exitCode = 1 := by decide

/-- C8 amended: in the implement phase every step of each detected
ecosystem chain executes, whatever the validator exit codes are: there is no
fail-fast inside a chain, and the ecosystem chains are independent (each
detected ecosystem runs its full chain regardless of the other). -/
theorem c8_amended_all_steps_run (w : Workspace) (v : Validators) :
    (lint_phase "implement" { w with packageJson := true, cargoToml := true } v).stepsRun =
      ["eslint", "prettier", "typescript", "test",
       "cargo-fmt", "cargo-clippy", "cargo-test"] ∧
    (lint_phase "implement" { w with packageJson := true, cargoToml := false } v).stepsRun =
      ["eslint", "prettier", "typescript", "test"] ∧
    (lint_phase "implement" { w with packageJson := false, cargoToml := true } v).stepsRun =
      ["cargo-fmt", "cargo-clippy", "cargo-test"] := by
  refine ⟨?_, ?_, ?_⟩ <;> simp [lint_phase]

/-- State for C9: a previous plan scan artifact exists before the implement
phase invocation of the plugin runtime. -/
def w9 : Workspace := { w0 with planScan := some ["previous scan content".toList] }

/-- C9 counterexample: reports/security/plan-scan.md exists before the cli
mode implement invocation and no longer exists afterwards: the mv of
run_cli_implement deletes an artifact file from its original path. -/
theorem c9_counterexample :
    w9.planScan.isSome = true ∧
    ((plugins_runtime Mode.cli "implement" e0 w9).snd).planScan.isSome = false := by decide

/-- C9 amended: after any plugin invocation, every previously existing
artifact file still exists at its path, with one exception forced by the
source: in cli mode the implement invocation moves
reports/security/plan-scan.md onto reports/security/implement-scan.md,
deleting plan-scan.md from its original path. -/
theorem c9_amended_no_deletion_except_mv (mode : Mode) (phase : String) (e : Env)
    (w : Workspace) (path : String)
    (hpath : path ∈ artifactPaths)
    (hexc : ¬(mode = Mode.cli ∧ phase = "implement" ∧
              path = "reports/security/plan-scan.md"))
    (hex : existsAt w path = true) :
    existsAt (plugins_runtime mode phase e w).snd path = true := by
  simp only [artifactPaths, List.mem_cons, List.mem_singleton, List.not_mem_nil,
    or_false] at hpath
  by_cases p1 : phase = "spec"
  · subst p1
    cases mode
    · have hq : plugins_runtime Mode.claude "spec" e w = (0, run_claude_spec w) := rfl
      rw [hq]
      rcases hpath with rfl | rfl | rfl | rfl | rfl | rfl <;>
        simp_all [run_claude_spec, existsAt_path1, existsAt_path2, existsAt_path3,
          existsAt_path4, existsAt_path5, existsAt_path6]
    · have hq : plugins_runtime Mode.cli "spec" e w = (0, run_cli_spec e w) := rfl
      rw [hq]
      rcases hpath with rfl | rfl | rfl | rfl | rfl | rfl <;>
        simp_all [run_cli_spec, existsAt_path1, existsAt_path2, existsAt_path3,
          existsAt_path4, existsAt_path5, existsAt_path6]
  · by_cases p2 : phase = "plan"
    · subst p2
      cases mode
      · have hq : plugins_runtime Mode.claude "plan" e w = (0, run_claude_plan w) := rfl
        rw [hq]
        rcases hpath with rfl | rfl | rfl | rfl | rfl | rfl <;>
          simp_all [run_claude_plan, existsAt_path1, existsAt_path2, existsAt_path3,
            existsAt_path4, existsAt_path5, existsAt_path6]
      · have hq : plugins_runtime Mode.cli "plan" e w = (0, run_cli_plan e w) := rfl
        rw [hq]
        rcases hpath with rfl | rfl | rfl | rfl | rfl | rfl <;>
          simp_all [run_cli_plan, existsAt_path1, existsAt_path2, existsAt_path3,
            existsAt_path4, existsAt_path5, existsAt_path6]
    · by_cases p3 : phase = "tasks"
      · subst p3
        cases mode
        · have hq : plugins_runtime Mode.claude "tasks" e w = (0, run_claude_tasks w) := rfl
          rw [hq]
          rcases hpath with rfl | rfl | rfl | rfl | rfl | rfl <;>
            simp_all [run_claude_tasks, existsAt_path1, existsAt_path2, existsAt_path3,
              existsAt_path4, existsAt_path5, existsAt_path6]
        · have hq : plugins_runtime Mode.cli "tasks" e w = (0, run_cli_tasks w) := rfl
          rw [hq]
          cases hpy : (w.pyprojectToml || w.requirementsTxt)
          · have ht : run_cli_tasks w = w := by simp [run_cli_tasks, hpy]
            rw [ht]
            exact hex
          · have ht : run_cli_tasks w =
                { w with tasksUnitHelp := some pythonUnitHelpDoc } := by
              simp [run_cli_tasks, hpy]
            rw [ht]
            rcases hpath with rfl | rfl | rfl | rfl | rfl | rfl <;>
              simp_all [existsAt_path1, existsAt_path2, existsAt_path3,
                existsAt_path4, existsAt_path5, existsAt_path6]
      · by_cases p4 : phase = "implement"
        · subst p4
          cases mode
          · have hq : plugins_runtime Mode.claude "implement" e w =
                (0, run_claude_implement w) := rfl
            rw [hq]
            rcases hpath with rfl | rfl | rfl | rfl | rfl | rfl <;>
              simp_all [run_claude_implement, existsAt_path1, existsAt_path2,
                existsAt_path3, existsAt_path4, existsAt_path5, existsAt_path6]
          · have hq : plugins_runtime Mode.cli "implement" e w =
                (0, run_cli_implement e w) := rfl
            rw [hq]
            rcases hpath with rfl | rfl | rfl | rfl | rfl | rfl
            · simp_all [run_cli_implement, run_cli_plan, existsAt_path1]
            · exact absurd ⟨rfl, rfl, rfl⟩ hexc
            · simp_all [run_cli_implement, run_cli_plan, existsAt_path3]
            · simp_all [run_cli_implement, run_cli_plan, existsAt_path4]
            · simp_all [run_cli_implement, run_cli_plan, existsAt_path5]
            · simp_all [run_cli_implement, run_cli_plan, existsAt_path6]
        · by_cases p5 : phase = "analyze"
          · subst p5
            cases mode
            · have hq : plugins_runtime Mode.claude "analyze" e w =
                  (0, run_claude_analyze w) := rfl
              rw [hq]
              rcases hpath with rfl | rfl | rfl | rfl | rfl | rfl <;>
                simp_all [run_claude_analyze, existsAt_path1, existsAt_path2,
                  existsAt_path3, existsAt_path4, existsAt_path5, existsAt_path6]
            · have hq : plugins_runtime Mode.cli "analyze" e w =
                  (0, run_cli_analyze e w) := rfl
              rw [hq]
              rcases hpath with rfl | rfl | rfl | rfl | rfl | rfl <;>
                simp_all [run_cli_analyze, existsAt_path1, existsAt_path2,
                  existsAt_path3, existsAt_path4, existsAt_path5, existsAt_path6]
          · have hfalse : checkedPhase phase = false := by
              simp only [checkedPhase, Bool.or_eq_false_iff]
              exact ⟨⟨⟨⟨beq_eq_false_iff_ne.mpr p1, beq_eq_false_iff_ne.mpr p2⟩,
                beq_eq_false_iff_ne.mpr p3⟩, beq_eq_false_iff_ne.mpr p4⟩,
                beq_eq_false_iff_ne.mpr p5⟩
            rw [plugins_runtime_unknown mode phase e w hfalse]
            exact hex

/-- Witness for the amended C9: the claude mode plan invocation keeps the
existing plan scan artifact in place. -/
theorem c9_amended_no_deletion_except_mv_witness :
    existsAt (plugins_runtime Mode.claude "plan" e0 w9).snd
      "reports/security/plan-scan.md" = true :=
  c9_amended_no_deletion_except_mv Mode.claude "plan" e0 w9
    "reports/security/plan-scan.md" (by decide) (by decide) (by decide)

/-- Replacement of the contents of the tests report and the compliance report
while keeping their existence unchanged. -/
def withAux (w : Workspace) (c1 c2 : FileContent) : Workspace :=
  { w with tasksUnitHelp := w.tasksUnitHelp.map (fun _ => c1),
           analyzeCompliance := w.analyzeCompliance.map (fun _ => c2) }

theorem missing_withAux (p : String) (w : Workspace) (c1 c2 : FileContent) :
    missing_artifacts p (withAux w c1 c2) = missing_artifacts p w := by
  unfold missing_artifacts withAux pythonManifest
  simp [Option.isSome_map']

theorem checkReports_congr (w1 w2 : Workspace)
    (h : hasMitigationOrWaiver w1 = hasMitigationOrWaiver w2)
    (l : List (Option FileContent)) :
    checkReports w1 l = checkReports w2 l := by
  induction l with
  | nil => rfl
  | cons r rest ih => cases r <;> simp [checkReports, h, ih]

theorem check_withAux (p : String) (w : Workspace) (c1 c2 : FileContent) :
    check_security_findings p (withAux w c1 c2) = check_security_findings p w := by
  unfold check_security_findings
  have hs : securityReport p (withAux w c1 c2) = securityReport p w := rfl
  rw [hs]
  exact checkReports_congr (withAux w c1 c2) w rfl (securityReport p w)

/-- State for C10 at the tasks phase: Python workspace, required artifact
present and containing a blocking severity marker in its text. -/
def wTasksSev : Workspace :=
  { w0 with requirementsTxt := true,
            tasksUnitHelp := some ["Severity: CRITICAL".toList] }

/-- State for C10 at the analyze phase: both required artifacts present, the
scanned analyze-deltas file clean, the unscanned compliance report holding a
blocking severity marker. -/
def wAnalyzeSev : Workspace :=
  { w0 with analyzeDeltas := some ["no findings this run".toList],
            analyzeCompliance := some ["Severity: CRITICAL".toList] }

/-- C10: the severity check never scans the tests report or the compliance
report: the check is a no-op for the tasks phase, the whole run result is
invariant under any replacement of those two file contents, and concretely a
Severity: CRITICAL marker inside tasks-unit-help.md or
analyze-compliance.md still leaves a fully-populated run at exit 0. -/
theorem c10_unscanned_reports_never_block :
    (∀ w : Workspace, check_security_findings "tasks" w = 0) ∧
    (∀ (p : String) (w : Workspace) (v : Validators) (c1 c2 : FileContent),
      lint_phase p (withAux w c1 c2) v = lint_phase p w v) ∧
    grepSeverity ["Severity: CRITICAL".toList] = true ∧
    (lint_phase "tasks" wTasksSev vZero).exitCode = 0 ∧
    (lint_phase "analyze" wAnalyzeSev vZero).exitCode = 0 := by
  refine ⟨fun w => rfl, ?_, by decide, by decide, by decide⟩
  intro p w v c1 c2
  have hval : validate_plugin_artifacts p (withAux w c1 c2) =
      validate_plugin_artifacts p w := by
    unfold validate_plugin_artifacts
    rw [missing_withAux, check_withAux]
  have hpk : (withAux w c1 c2).packageJson = w.packageJson := rfl
  have hct : (withAux w c1 c2).cargoToml = w.cargoToml := rfl
  simp only [lint_phase, hval, missing_withAux, hpk, hct]

end SpecKit
